import Mathlib

/-!
Verification of the dash-tailwindcss-plugin build orchestrator against its
specification. The Python source (dash_tailwindcss_plugin/utils.py and the
plugin/CLI drivers) is shallowly embedded: pure string construction becomes
Lean string functions, filesystem state becomes an explicit lookup function
or path list, and every external subprocess or network action is recorded as
an explicit effect value so that absence of an effect is provable.
-/

/-! ## Python value model for the theme-configuration serializer

`dict_to_js_object` (utils.py lines 55-100) walks an arbitrary Python
dictionary. Python dictionaries, strings, booleans, ints, floats, lists and
None are modelled by a mutually inductive value type so that the serializer
is a structural recursion. A float is carried as the decimal literal that
Python `str()` produces for it; all other renderings are computed here. -/

mutual

inductive PyVal where
  | dict : PyFields → PyVal
  | str : String → PyVal
  | bool : Bool → PyVal
  | int : Int → PyVal
  | float : String → PyVal
  | list : PyList → PyVal
  | pyNone : PyVal

inductive PyFields where
  | nil : PyFields
  | cons : String → PyVal → PyFields → PyFields

inductive PyList where
  | nil : PyList
  | cons : PyVal → PyList → PyList

end

/-- Python truthiness of a dict: `if not d` is true exactly on the empty dict. -/
def PyFields.isEmpty : PyFields → Bool
  | .nil => true
  | .cons _ _ _ => false

mutual

/-- Python `repr` of a value, as reached from `str()` on containers: strings
are single-quoted, booleans capitalized, None rendered literally. -/
def pyRepr : PyVal → String
  | .dict d => "\x7b" ++ String.intercalate ", " (pyReprFields d) ++ "\x7d"
  | .str s => "\x27" ++ s ++ "\x27"
  | .bool b => if b then "True" else "False"
  | .int n => toString n
  | .float f => f
  | .list l => "[" ++ String.intercalate ", " (pyReprList l) ++ "]"
  | .pyNone => "None"

def pyReprFields : PyFields → List String
  | .nil => []
  | .cons k v rest => ("\x27" ++ k ++ "\x27: " ++ pyRepr v) :: pyReprFields rest

def pyReprList : PyList → List String
  | .nil => []
  | .cons v rest => pyRepr v :: pyReprList rest

end

/-- Python `str()` of a value: identity on strings, `repr` otherwise. This is
what an f-string interpolation `f"...\x7bvalue\x7d..."` produces. -/
def pyStr : PyVal → String
  | .str s => s
  | v => pyRepr v

/-- The two-space indentation prefix, Python `'  ' * indent`. -/
def spaces2 (n : Nat) : String := String.join (List.replicate n "  ")

mutual

/-- One rendered line per key of the dictionary (the loop body of
utils.py lines 73-98), in iteration order. -/
def jsItems : PyFields → Nat → List String
  | .nil, _ => []
  | .cons key value rest, indent => jsItem key value indent :: jsItems rest indent

/-- The rendering of a single `key: value` item. The branches appear in the
order of the isinstance chain in the source: dict, str, bool, int or float,
list, then the fallthrough that stringifies the value as-is. In Python the
bool test must precede the int test because bool is a subtype of int; the
match arms here are laid out in the same order. A dict value recurses at
indent + 1 (inlined body of the recursive dict_to_js_object call). -/
def jsItem (key : String) (value : PyVal) (indent : Nat) : String :=
  match value with
  | .dict d =>
      spaces2 (indent + 1) ++ key ++ ": " ++
        (if d.isEmpty then "\x7b\x7d"
         else "\x7b\n" ++ String.intercalate ",\n" (jsItems d (indent + 1)) ++
           "\n" ++ spaces2 (indent + 1) ++ "\x7d")
  | .str s => spaces2 (indent + 1) ++ key ++ ": \"" ++ s ++ "\""
  | .bool b => spaces2 (indent + 1) ++ key ++ ": " ++ (if b then "true" else "false")
  | .int n => spaces2 (indent + 1) ++ key ++ ": " ++ pyStr (.int n)
  | .float f => spaces2 (indent + 1) ++ key ++ ": " ++ pyStr (.float f)
  | .list l =>
      spaces2 (indent + 1) ++ key ++ ": [" ++
        String.intercalate ", " (jsArrayItems l indent) ++ "]"
  | v => spaces2 (indent + 1) ++ key ++ ": " ++ pyStr v

/-- The rendered elements of a list value (utils.py lines 84-95), in order. -/
def jsArrayItems : PyList → Nat → List String
  | .nil, _ => []
  | .cons item rest, indent => jsArrayItem item indent :: jsArrayItems rest indent

/-- The rendering of a single list element: dict elements recurse at
indent + 2 (inlined recursive call), strings are double-quoted, booleans are
lowered, numbers use `str`, everything else falls through to `str`. -/
def jsArrayItem (item : PyVal) (indent : Nat) : String :=
  match item with
  | .dict d =>
      if d.isEmpty then "\x7b\x7d"
      else "\x7b\n" ++ String.intercalate ",\n" (jsItems d (indent + 2)) ++
        "\n" ++ spaces2 (indent + 2) ++ "\x7d"
  | .str s => "\"" ++ s ++ "\""
  | .bool b => if b then "true" else "false"
  | .int n => pyStr (.int n)
  | .float f => pyStr (.float f)
  | v => pyStr v

end

/-- `dict_to_js_object` (utils.py lines 55-100): the empty dict renders as
the bare brace pair with no newline; otherwise a brace block with one item
per line, comma-separated, closing brace indented at the current level. -/
def dict_to_js_object (d : PyFields) (indent : Nat) : String :=
  if d.isEmpty then "\x7b\x7d"
  else "\x7b\n" ++ String.intercalate ",\n" (jsItems d indent) ++
    "\n" ++ spaces2 indent ++ "\x7d"

/-- The inlined dict arm of `jsItem` agrees with the top-level function,
as in the source where the branch literally calls dict_to_js_object. -/
theorem jsItem_dict_eq (key : String) (d : PyFields) (indent : Nat) :
    jsItem key (.dict d) indent
      = spaces2 (indent + 1) ++ key ++ ": " ++ dict_to_js_object d (indent + 1) := by
  cases d <;> rfl

/-- The inlined dict arm of `jsArrayItem` agrees with the top-level function. -/
theorem jsArrayItem_dict_eq (d : PyFields) (indent : Nat) :
    jsArrayItem (.dict d) indent = dict_to_js_object d (indent + 2) := by
  cases d <;> rfl

/-! ## NodeManager: runtime acquisition (utils.py lines 103-317)

The filesystem is modelled as the list of existing paths; every state-changing
action of the acquisition code is recorded as an `FsEffect`. The result of the
probing subprocess `node --version` is passed in as an oracle value (exit code
and stdout, or absence of the binary). Errors keep the Python exception kind
and message. -/

inductive ErrKind where
  | runtimeMissing : ErrKind
  | unsupportedPlatform : ErrKind
deriving DecidableEq, Repr

structure PyError where
  kind : ErrKind
  msg : String
deriving DecidableEq, Repr

inductive FsEffect where
  | mkdir (dir : String) : FsEffect
  | network (url : String) : FsEffect
  | extractArchive (archive : String) (dest : String) : FsEffect
  | removeFile (path : String) : FsEffect
  | chmod (path : String) : FsEffect
deriving DecidableEq, Repr

/-- Python `str.lower()` restricted to ASCII, character by character. -/
def py_lower (s : String) : String := String.mk (s.data.map Char.toLower)

/-- POSIX path join as used by the non-Windows paths the claims exercise. -/
def pjoin (a b : String) : String := a ++ "/" ++ b

/-- Python os.path.dirname on POSIX paths: the prefix up to the last
separator, with trailing separators stripped unless the prefix is all
separators (so the dirname of /node is the root itself). -/
def dirname (p : String) : String :=
  let rest := p.data.reverse.dropWhile (fun c => c ≠ '/')
  if rest.all (fun c => c = '/') then String.mk rest.reverse
  else String.mk ((rest.dropWhile (fun c => c = '/')).reverse)

/-- Python os.path.basename on POSIX paths: everything after the last
separator. -/
def basename (p : String) : String :=
  String.mk ((p.data.reverse.takeWhile (fun c => c ≠ '/')).reverse)

/-- The platform table of download_nodejs (utils.py lines 144-166): for a
lower-cased OS and machine name, the download URL and the archive directory
name, or nothing when the OS is unsupported. -/
def node_download_spec (sysL machL version : String) : Option (String × String) :=
  if sysL = "darwin" then
    if machL = "arm64" ∨ machL = "aarch64" then
      some ("https://nodejs.org/dist/v" ++ version ++ "/node-v" ++ version ++ "-darwin-arm64.tar.gz",
            "node-v" ++ version ++ "-darwin-arm64")
    else
      some ("https://nodejs.org/dist/v" ++ version ++ "/node-v" ++ version ++ "-darwin-x64.tar.gz",
            "node-v" ++ version ++ "-darwin-x64")
  else if sysL = "linux" then
    if machL = "aarch64" then
      some ("https://nodejs.org/dist/v" ++ version ++ "/node-v" ++ version ++ "-linux-arm64.tar.xz",
            "node-v" ++ version ++ "-linux-arm64")
    else
      some ("https://nodejs.org/dist/v" ++ version ++ "/node-v" ++ version ++ "-linux-x64.tar.xz",
            "node-v" ++ version ++ "-linux-x64")
  else if sysL = "windows" then
    some ("https://nodejs.org/dist/v" ++ version ++ "/node-v" ++ version ++ "-win-x64.zip",
          "node-v" ++ version ++ "-win-x64")
  else
    Option.none

/-- The cache directory `<package dir>/.nodejs_cache` (utils.py line 172). -/
def cache_dir_path (package_dir : String) : String := pjoin package_dir ".nodejs_cache"

/-- The deterministic cached executable path (utils.py lines 177-180):
flat `node.exe` on Windows, `bin/node` elsewhere. -/
def node_executable_path (package_dir sysL node_dir : String) : String :=
  if sysL = "windows" then pjoin (pjoin (cache_dir_path package_dir) node_dir) "node.exe"
  else pjoin (pjoin (pjoin (cache_dir_path package_dir) node_dir) "bin") "node"

/-- `NodeManager.download_nodejs` (utils.py lines 136-217). Returns the list
of performed effects together with the resulting executable path or error.
An unsupported platform raises before the cache directory is created, so no
effect at all is recorded on that path. On a cache hit the function returns
after at most creating the cache directory: no network, no extraction. -/
def download_nodejs (system machine version package_dir : String) (fs : List String) :
    List FsEffect × Except PyError String :=
  let sysL := py_lower system
  let machL := py_lower machine
  match node_download_spec sysL machL version with
  | Option.none => ([], Except.error ⟨ErrKind.unsupportedPlatform, "Unsupported platform: " ++ sysL⟩)
  | some (node_url, node_dir) =>
    let node_dir_path := cache_dir_path package_dir
    let mkdirEff : List FsEffect :=
      if fs.contains node_dir_path then [] else [FsEffect.mkdir node_dir_path]
    let node_executable := node_executable_path package_dir sysL node_dir
    if fs.contains node_executable then
      (mkdirEff, Except.ok node_executable)
    else
      let node_archive := pjoin node_dir_path (basename node_url)
      (mkdirEff ++ [FsEffect.network node_url, FsEffect.extractArchive node_archive node_dir_path,
          FsEffect.removeFile node_archive]
        ++ (if sysL = "windows" then [] else [FsEffect.chmod node_executable]),
       Except.ok node_executable)

/-- `NodeManager.check_nodejs_available` (utils.py lines 118-134): the probe
oracle is the result of running `node --version` (exit code and stdout), or
nothing when the binary is absent from PATH. Available iff exit code zero. -/
def check_nodejs_available (probe : Option (Int × String)) : Bool × String :=
  match probe with
  | some (rc, out) => if rc = 0 then (true, out.trim) else (false, "")
  | Option.none => (false, "")

/-- The two RuntimeMissing messages (utils.py lines 236-246): the CLI wording
and the embedded-plugin wording. -/
def runtime_missing_msg (is_cli : Bool) : String :=
  if is_cli then
    "Node.js is required but not found in PATH. Install Node.js or use --download-node to automatically download it."
  else
    "Node.js is required for offline mode but not found. Install Node.js or use download_node=True to automatically download it."

/-- `NodeManager.check_or_download_nodejs` (utils.py lines 219-249): a
successful PATH probe returns the system handle (Python None) with no
effects; otherwise a disabled download raises RuntimeMissing with the
context-dependent message; otherwise the download path is taken. -/
def check_or_download_nodejs (probe : Option (Int × String)) (download_node is_cli : Bool)
    (system machine node_version package_dir : String) (fs : List String) :
    List FsEffect × Except PyError (Option String) :=
  if (check_nodejs_available probe).1 then
    ([], Except.ok Option.none)
  else if !download_node then
    ([], Except.error ⟨ErrKind.runtimeMissing, runtime_missing_msg is_cli⟩)
  else
    let r := download_nodejs system machine node_version package_dir fs
    (r.1, r.2.map some)

/-! ## ExecutableLocator: npm and npx resolution (utils.py lines 251-317) -/

/-- `NodeManager.get_command_alias_by_platform` (utils.py lines 251-263). -/
def get_command_alias_by_platform (system command : String) : String :=
  if py_lower system = "windows" then command ++ ".cmd" else command

/-- `NodeManager.npm_path` (utils.py lines 277-296): with a downloaded
runtime, the sibling-directory candidate is probed first; when it does not
exist the variable is reassigned to the bin-subdirectory candidate, which is
returned without a further existence check. -/
def npm_path (system : String) (node_path : Option String) (fs : List String) : String :=
  match node_path with
  | some np =>
    let node_dir := dirname np
    let p := pjoin node_dir (get_command_alias_by_platform system "npm")
    if fs.contains p then p
    else pjoin (pjoin node_dir "bin") (get_command_alias_by_platform system "npm")
  | Option.none => get_command_alias_by_platform system "npm"

/-- `NodeManager.npx_path` (utils.py lines 298-317): identical probing with
the npx alias. -/
def npx_path (system : String) (node_path : Option String) (fs : List String) : String :=
  match node_path with
  | some np =>
    let node_dir := dirname np
    let p := pjoin node_dir (get_command_alias_by_platform system "npx")
    if fs.contains p then p
    else pjoin (pjoin node_dir "bin") (get_command_alias_by_platform system "npx")
  | Option.none => get_command_alias_by_platform system "npx"

/-! ## TailwindCommand: scaffolding and build lifecycle (utils.py lines 320-677)

File contents matter here, so the filesystem is a lookup from path to
optional content. Directory creation and subprocess side effects outside the
scaffolded files are not part of this state. -/

abbrev FS := String → Option String

structure TailwindCommand where
  node_path : Option String
  npm_path : String
  npx_path : String
  content_path : List String
  input_css_path : String
  output_css_path : String
  config_js_path : String
  is_cli : Bool
  theme_config : PyFields

/-- The fixed default input stylesheet (utils.py lines 369-372). -/
def input_css_content : String :=
  "@tailwind base;\n@tailwind components;\n@tailwind utilities;\n"

/-- `TailwindCommand.create_default_input_tailwindcss` (utils.py lines
357-374): unconditionally writes the default stylesheet at the input path. -/
def TailwindCommand.create_default_input_tailwindcss
    (self : TailwindCommand) (fs : FS) : FS :=
  fun p => if p = self.input_css_path then some input_css_content else fs p

/-- The serialized theme block (utils.py lines 386-394): the theme dict is
rendered at indent level 2 and every non-blank line is shifted four more
spaces; an empty theme renders as an empty object literal. -/
def theme_str (theme : PyFields) : String :=
  if theme.isEmpty then "\x7b\x7d"
  else
    String.intercalate "\n"
      ((dict_to_js_object theme 2).splitOn "\n" |>.map
        (fun l => if l.trim = "" then l else "    " ++ l))

/-- The generated config file text (utils.py lines 396-403). -/
def config_content (content_path : List String) (theme : PyFields) : String :=
  "module.exports = \x7b\n    content: ["
    ++ String.intercalate ", " (content_path.map (fun p => "\"" ++ p ++ "\""))
    ++ "],\n    theme: \x7b\n        extend: "
    ++ theme_str theme
    ++ ",\n    \x7d,\n    plugins: [],\n\x7d\n"

/-- `TailwindCommand.create_default_tailwindcss_config` (utils.py lines
376-411): unconditionally writes the generated config at the config path. -/
def TailwindCommand.create_default_tailwindcss_config
    (self : TailwindCommand) (fs : FS) : FS :=
  fun p => if p = self.config_js_path then
      some (config_content self.content_path self.theme_config)
    else fs p

/-- The file-scaffolding steps of `TailwindCommand.init` (utils.py lines
447-505): the default input stylesheet and then the default config are each
written only when absent on disk; the manifest-initialization subprocess that
follows touches neither scaffolded file through this wrapper. -/
def TailwindCommand.init (self : TailwindCommand) (fs : FS) : FS :=
  let fs1 := if (fs self.input_css_path).isSome then fs
    else self.create_default_input_tailwindcss fs
  if (fs1 self.config_js_path).isSome then fs1
  else self.create_default_tailwindcss_config fs1

/-- The result of a finished subprocess: exit code and captured stderr. -/
structure ProcResult where
  returncode : Int
  stderr : String

inductive LogLevel where
  | info : LogLevel
  | error : LogLevel
deriving DecidableEq, Repr

/-- `TailwindCommand.build` (utils.py lines 545-591): invokes the compiler
subprocess (its finished result is the `proc` oracle) and returns the
instance itself on every path; a nonzero exit only adds an error log line
carrying the captured stderr. The wrapper writes no file, so the filesystem
component is returned unchanged. -/
def TailwindCommand.build (self : TailwindCommand) (fs : FS) (proc : ProcResult) :
    TailwindCommand × FS × List (LogLevel × String) :=
  let logs0 := [(LogLevel.info,
    "🔨 Building Tailwind CSS from " ++ self.input_css_path ++ " to "
      ++ self.output_css_path ++ "...")]
  if proc.returncode ≠ 0 then
    (self, fs, logs0 ++ [(LogLevel.error, "❌ Error building Tailwind CSS: " ++ proc.stderr)])
  else
    (self, fs, logs0 ++ [(LogLevel.info, "✅ Build completed successfully!"),
      (LogLevel.info, "🎨 Tailwind CSS built successfully to " ++ self.output_css_path)])

/-! ## Parts of the repository absent from src/

Two pieces the claims reference exist in the repository only through their
tests and the spec: the freshness gate of the plugin orchestrator and the
version-aware package descriptor of the canonical TailwindCommand. They are
modelled from the spec text. -/

/-- Modelled from the spec: `BuildGate.shouldSkip` (the plugin method
`_should_skip_build`, exercised by tests/test_plugin.py but not present in
the src/ tree). Returns false when disabled or when the output file does not
exist (its modification time is absent); otherwise true iff the age
`now - mtime` is strictly below the threshold. Pure: no side effects. -/
def should_skip_build (enabled : Bool) (output_mtime : Option Int)
    (now threshold : Int) : Bool :=
  if !enabled then false
  else match output_mtime with
    | Option.none => false
    | some t => decide (now - t < threshold)

/-- Modelled from the spec: the version-appropriate package list of the
canonical version-aware `TailwindCommand.install` (absent from src/; the
v4 pair is pinned by tests/test_utils.py). Version 4 installs the core
engine and the separate CLI front-end; version 3 installs the single
combined package. -/
def tailwind_package (tailwind_version : String) : List String :=
  if tailwind_version = "4" then ["tailwindcss", "@tailwindcss/cli"]
  else ["tailwindcss@3"]

/-- Modelled from the spec: the dev-dependency install argument vector,
`npm install -D <packages>` as in utils.py lines 518-532 with the package
list selected by the toolchain version. -/
def install_cmd (npm : String) (tailwind_version : String) : List String :=
  npm :: "install" :: "-D" :: tailwind_package tailwind_version

/-- Modelled from the spec: `install()` first probes the compiler with its
help subcommand (`_check_tailwindcss`, whose outcome is the `probe_ok`
oracle) and issues the version-appropriate install only when the probe
fails; a successful probe issues no install request. -/
def install (probe_ok : Bool) (npm : String) (tailwind_version : String) :
    Option (List String) :=
  if probe_ok then Option.none else some (install_cmd npm tailwind_version)

/-! ## Claim theorems -/

/-- C1: `BuildGate.shouldSkip(outputPath, thresholdSeconds, enabled)` is
false whenever the gate is disabled (regardless of file age) and false
whenever the output file does not exist; otherwise it is true iff the age
`now - mtime` is strictly less than the threshold. -/
theorem should_skip_build_correct (enabled : Bool) (output_mtime : Option Int)
    (now threshold : Int) :
    (enabled = false → should_skip_build enabled output_mtime now threshold = false)
    ∧ (output_mtime = Option.none →
        should_skip_build enabled output_mtime now threshold = false)
    ∧ (∀ t, enabled = true → output_mtime = some t →
        (should_skip_build enabled output_mtime now threshold = true
          ↔ now - t < threshold)) := by
  refine ⟨?_, ?_, ?_⟩
  · intro h; subst h; simp [should_skip_build]
  · intro h; subst h; simp [should_skip_build]
  · intro t he hm; subst he; subst hm
    simp [should_skip_build]

theorem should_skip_build_correct_witness :
    should_skip_build true (some 95) 100 10 = true
    ∧ should_skip_build false (some 95) 100 10 = false :=
  ⟨((should_skip_build_correct true (some 95) 100 10).2.2 95 rfl rfl).mpr (by decide),
   (should_skip_build_correct false (some 95) 100 10).1 rfl⟩

/-- C2: for every download flag and version, a successful PATH probe makes
acquisition return the system handle (Python None) with no effects at all —
download is skipped even when requested; when the runtime is absent and
download is not requested, acquisition fails with a RuntimeMissing error
whose kind is the same in CLI and plugin context while the two messages
differ. -/
theorem check_or_download_nodejs_system_wins (probe : Option (Int × String))
    (download_node is_cli : Bool)
    (system machine node_version package_dir : String) (fs : List String) :
    ((check_nodejs_available probe).1 = true →
      check_or_download_nodejs probe download_node is_cli system machine
        node_version package_dir fs = ([], Except.ok Option.none))
    ∧ ((check_nodejs_available probe).1 = false → download_node = false →
      check_or_download_nodejs probe download_node is_cli system machine
        node_version package_dir fs
        = ([], Except.error ⟨ErrKind.runtimeMissing, runtime_missing_msg is_cli⟩))
    ∧ runtime_missing_msg true ≠ runtime_missing_msg false := by
  refine ⟨?_, ?_, by decide⟩
  · intro h; simp [check_or_download_nodejs, h]
  · intro h hd; subst hd; simp [check_or_download_nodejs, h]

theorem check_or_download_nodejs_system_wins_witness :
    check_or_download_nodejs (some (0, "v18.17.0\n")) true true "linux" "x86_64"
      "18.17.0" "/pkg" [] = ([], Except.ok Option.none)
    ∧ check_or_download_nodejs Option.none false false "linux" "x86_64"
      "18.17.0" "/pkg" []
      = ([], Except.error ⟨ErrKind.runtimeMissing, runtime_missing_msg false⟩) :=
  ⟨(check_or_download_nodejs_system_wins (some (0, "v18.17.0\n")) true true
      "linux" "x86_64" "18.17.0" "/pkg" []).1 (by decide),
   (check_or_download_nodejs_system_wins Option.none false false
      "linux" "x86_64" "18.17.0" "/pkg" []).2.1 (by decide) rfl⟩

/-- C3: when the expected executable already exists at the deterministic
cache path for the requested version and platform, acquisition with download
enabled returns that path, and the only effect possibly performed is
creating the cache directory — in particular zero network requests and no
archive extraction. -/
theorem download_nodejs_cache_hit (system machine version package_dir : String)
    (is_cli : Bool) (fs : List String) (url dir : String)
    (hspec : node_download_spec (py_lower system) (py_lower machine) version = some (url, dir))
    (hcache : node_executable_path package_dir (py_lower system) dir ∈ fs) :
    check_or_download_nodejs Option.none true is_cli system machine version
      package_dir fs
      = ((if cache_dir_path package_dir ∈ fs then []
            else [FsEffect.mkdir (cache_dir_path package_dir)]),
         Except.ok (some (node_executable_path package_dir (py_lower system) dir))) := by
  simp [check_or_download_nodejs, check_nodejs_available, download_nodejs,
    hspec, hcache, Except.map]

theorem download_nodejs_cache_hit_witness :
    check_or_download_nodejs Option.none true false "linux" "x86_64" "18.17.0"
      "/pkg" ["/pkg/.nodejs_cache/node-v18.17.0-linux-x64/bin/node"]
      = ([FsEffect.mkdir "/pkg/.nodejs_cache"],
         Except.ok (some "/pkg/.nodejs_cache/node-v18.17.0-linux-x64/bin/node")) := by
  have h := download_nodejs_cache_hit "linux" "x86_64" "18.17.0" "/pkg" false
    ["/pkg/.nodejs_cache/node-v18.17.0-linux-x64/bin/node"]
    "https://nodejs.org/dist/v18.17.0/node-v18.17.0-linux-x64.tar.xz"
    "node-v18.17.0-linux-x64" (by decide) (by decide)
  simpa [node_executable_path, cache_dir_path, pjoin, py_lower] using h

/-- C4: for every host OS whose lower-cased name is none of darwin, linux
and windows, runtime acquisition fails with an UnsupportedPlatform error and
records no effect at all — no network request and no filesystem write; in
particular the cache directory is not created. -/
theorem download_nodejs_unsupported_platform (system machine version package_dir : String)
    (is_cli : Bool) (fs : List String)
    (h1 : py_lower system ≠ "darwin") (h2 : py_lower system ≠ "linux")
    (h3 : py_lower system ≠ "windows") :
    check_or_download_nodejs Option.none true is_cli system machine version
      package_dir fs
      = ([], Except.error ⟨ErrKind.unsupportedPlatform,
             "Unsupported platform: " ++ py_lower system⟩) := by
  simp [check_or_download_nodejs, check_nodejs_available, download_nodejs,
    node_download_spec, h1, h2, h3, Except.map]

theorem download_nodejs_unsupported_platform_witness :
    check_or_download_nodejs Option.none true true "solaris" "sparc" "18.17.0"
      "/pkg" []
      = ([], Except.error ⟨ErrKind.unsupportedPlatform,
             "Unsupported platform: solaris"⟩) := by
  have h := download_nodejs_unsupported_platform "solaris" "sparc" "18.17.0" "/pkg"
    true [] (by decide) (by decide) (by decide)
  simpa [py_lower] using h

/-- C5: `install()` issues no install request when the help-subcommand probe
succeeds; when the probe fails, the dev-dependency install for version 4
names both the core engine and the CLI front-end (two packages), while
version 3 names exactly one combined package. -/
theorem install_version_packages (npm : String) (version : String) :
    install true npm version = Option.none
    ∧ install false npm "4" = some [npm, "install", "-D", "tailwindcss", "@tailwindcss/cli"]
    ∧ "tailwindcss" ∈ tailwind_package "4"
    ∧ "@tailwindcss/cli" ∈ tailwind_package "4"
    ∧ (tailwind_package "4").length = 2
    ∧ install false npm "3" = some [npm, "install", "-D", "tailwindcss@3"]
    ∧ (tailwind_package "3").length = 1 := by
  refine ⟨rfl, ?_, by decide, by decide, by decide, ?_, by decide⟩
  · simp [install, install_cmd, tailwind_package]
  · simp [install, install_cmd, tailwind_package]

/-- C6: the config-scaffolding step never overwrites an existing file at the
config path: whenever some content is already present there, running the
scaffold again leaves exactly that content in place (the file is only
created when absent). -/
theorem init_never_overwrites_config (self : TailwindCommand) (fs : FS) (c : String)
    (h : fs self.config_js_path = some c) :
    TailwindCommand.init self fs self.config_js_path = some c := by
  have h2 : (if (fs self.input_css_path).isSome then fs
      else self.create_default_input_tailwindcss fs) self.config_js_path = some c := by
    by_cases h1 : (fs self.input_css_path).isSome
    · simpa [h1] using h
    · simp only [h1, if_false]
      unfold TailwindCommand.create_default_input_tailwindcss
      by_cases h3 : self.config_js_path = self.input_css_path
      · exact absurd (h3 ▸ h ▸ rfl : (fs self.input_css_path).isSome = true)
          (by simpa using h1)
      · simpa [h3] using h
  unfold TailwindCommand.init
  simp only [h2, Option.isSome_some, if_true]

theorem init_never_overwrites_config_witness :
    TailwindCommand.init
      ⟨Option.none, "npm", "npx", ["**/*.py"], "in.css", "out.css", "cfg.js",
        false, PyFields.nil⟩
      (fun p => if p = "cfg.js" then some "MUTATED" else Option.none) "cfg.js"
      = some "MUTATED" :=
  init_never_overwrites_config
    ⟨Option.none, "npm", "npx", ["**/*.py"], "in.css", "out.css", "cfg.js",
      false, PyFields.nil⟩
    (fun p => if p = "cfg.js" then some "MUTATED" else Option.none) "MUTATED"
    (by decide)

/-- C7: the serializer renders the empty mapping as the bare brace pair with
no newline; a single string entry at indent 0 as a brace block whose item
line is indented two spaces; and the list ["a", true, 1, 2.5] as
["a", true, 1, 2.5] with element order preserved. -/
theorem dict_to_js_object_examples :
    dict_to_js_object PyFields.nil 0 = "\x7b\x7d"
    ∧ dict_to_js_object (PyFields.cons "k" (PyVal.str "v") PyFields.nil) 0
      = "\x7b\n  k: \"v\"\n\x7d"
    ∧ dict_to_js_object
        (PyFields.cons "k"
          (PyVal.list (PyList.cons (PyVal.str "a") (PyList.cons (PyVal.bool true)
            (PyList.cons (PyVal.int 1) (PyList.cons (PyVal.float "2.5") PyList.nil)))))
          PyFields.nil) 0
      = "\x7b\n  k: [\"a\", true, 1, 2.5]\n\x7d" := by
  refine ⟨rfl, ?_, ?_⟩ <;> decide

/-- C8 counterexample: with a downloaded runtime at /d/node on Linux and a
filesystem on which neither companion candidate exists, npm resolution
returns the bin-subdirectory candidate /d/bin/npm, not the sibling-directory
candidate /d/npm that the claim promises for this case. -/
theorem npm_path_neither_exists_counterexample :
    npm_path "linux" (some "/d/node") [] = "/d/bin/npm"
    ∧ npm_path "linux" (some "/d/node") []
        ≠ pjoin (dirname "/d/node") (get_command_alias_by_platform "linux" "npm") := by
  decide

/-- C8 amended: for a downloaded runtime handle, companion resolution probes
the sibling directory of the runtime executable first and returns it when it
exists; otherwise it returns the bin-subdirectory candidate, whether or not
that candidate exists (so when neither exists the bin-subdirectory
candidate, not the sibling one, is returned). Both npm and npx behave so. -/
theorem npm_path_probe_order (system np : String) (fs : List String) :
    (pjoin (dirname np) (get_command_alias_by_platform system "npm") ∈ fs →
      npm_path system (some np) fs
        = pjoin (dirname np) (get_command_alias_by_platform system "npm"))
    ∧ (pjoin (dirname np) (get_command_alias_by_platform system "npm") ∉ fs →
      npm_path system (some np) fs
        = pjoin (pjoin (dirname np) "bin") (get_command_alias_by_platform system "npm"))
    ∧ (pjoin (dirname np) (get_command_alias_by_platform system "npx") ∈ fs →
      npx_path system (some np) fs
        = pjoin (dirname np) (get_command_alias_by_platform system "npx"))
    ∧ (pjoin (dirname np) (get_command_alias_by_platform system "npx") ∉ fs →
      npx_path system (some np) fs
        = pjoin (pjoin (dirname np) "bin") (get_command_alias_by_platform system "npx")) := by
  refine ⟨?_, ?_, ?_, ?_⟩ <;> intro h <;> simp [npm_path, npx_path, h]

theorem npm_path_probe_order_witness :
    npm_path "linux" (some "/d/node") ["/d/npm"]
      = pjoin (dirname "/d/node") (get_command_alias_by_platform "linux" "npm")
    ∧ npx_path "linux" (some "/d/node") []
      = pjoin (pjoin (dirname "/d/node") "bin") (get_command_alias_by_platform "linux" "npx") :=
  ⟨(npm_path_probe_order "linux" "/d/node" ["/d/npm"]).1 (by decide),
   (npm_path_probe_order "linux" "/d/node" []).2.2.2 (by decide)⟩

/-- C9: observed behavior of src build() at the failing input of the
repository's own test suite (compiler exiting 1 with stderr "Build error").
The wrapper leaves the previously existing output file untouched and the
error log carries the exact stderr text, but the returned value is the
instance itself — identical to the value returned on a successful build, so
the caller receives no distinguishable failure result. The repository's
tests instead expect a raised error carrying that stderr. -/
theorem build_failure_indistinguishable :
    (TailwindCommand.build
        ⟨Option.none, "npm", "npx", ["**/*.py"], "in.css", "out.css", "cfg.js",
          false, PyFields.nil⟩
        (fun p => if p = "out.css" then some "OLD CSS" else Option.none)
        ⟨1, "Build error"⟩).2.1 "out.css" = some "OLD CSS"
    ∧ (LogLevel.error, "❌ Error building Tailwind CSS: Build error")
        ∈ (TailwindCommand.build
            ⟨Option.none, "npm", "npx", ["**/*.py"], "in.css", "out.css", "cfg.js",
              false, PyFields.nil⟩
            (fun p => if p = "out.css" then some "OLD CSS" else Option.none)
            ⟨1, "Build error"⟩).2.2
    ∧ (TailwindCommand.build
        ⟨Option.none, "npm", "npx", ["**/*.py"], "in.css", "out.css", "cfg.js",
          false, PyFields.nil⟩
        (fun p => if p = "out.css" then some "OLD CSS" else Option.none)
        ⟨1, "Build error"⟩).1
      = (TailwindCommand.build
          ⟨Option.none, "npm", "npx", ["**/*.py"], "in.css", "out.css", "cfg.js",
            false, PyFields.nil⟩
          (fun p => if p = "out.css" then some "OLD CSS" else Option.none)
          ⟨0, ""⟩).1 := by
  refine ⟨by simp [TailwindCommand.build], ?_, by simp [TailwindCommand.build]⟩
  simp [TailwindCommand.build]

/-- C10: in both the mapping branch and the sequence branch of the
serializer, a boolean value always renders as the lowered literal
true/false, which is never the numeric/str rendering Python would produce
for the same value ("True"/"False"); in the source this hinges on the bool
isinstance test preceding the int/float test, mirrored here by the arm
order of jsItem and jsArrayItem. -/
theorem serializer_bool_renders_true_false (key : String) (b : Bool) (indent : Nat) :
    jsItem key (PyVal.bool b) indent
      = spaces2 (indent + 1) ++ key ++ ": " ++ (if b then "true" else "false")
    ∧ jsArrayItem (PyVal.bool b) indent = (if b then "true" else "false")
    ∧ (if b then "true" else "false") ≠ pyStr (PyVal.bool b) := by
  refine ⟨rfl, rfl, ?_⟩
  cases b <;> decide
